import Mathlib

/-!
Verification of the parsl future-composition core and the IPyParallel
executor's scaling logic, as a shallow embedding of
`src/parsl/dataflow/futures.py` and `src/parsl/executors/ipp.py`.

The `AppFuture` methods present in `futures.py` (`update_parent`, `cancel`,
`cancelled`, `running`) are embedded directly from the source.  The
forwarding algorithm that reacts to an attempt future's resolution is not
implemented in `futures.py` (it lives in the scheduler, outside this source
tree); it is modelled from the spec where noted.
-/

namespace Parsl

/-- An exception description (class name and message), standing in for a
Python exception object.  A `RemoteExceptionWrapper` carries one of these
back from a remote worker. -/
structure PExc where
  ename : String
  emsg : String
deriving DecidableEq

/-- A value an attempt future can resolve with.  `remoteWrapper e` is a
`RemoteExceptionWrapper` instance (the Remote-Exception Marker) carrying the
originating failure `e`; the other constructors are ordinary values. -/
inductive PValue where
  | vint (n : Int)
  | vstr (s : String)
  | remoteWrapper (e : PExc)
deriving DecidableEq

/-- Whether a value is a `RemoteExceptionWrapper` (a Remote-Exception
Marker). -/
def PValue.isRemoteMarker : PValue → Bool
  | .remoteWrapper _ => true
  | _ => false

/-- How one attempt future resolved: with a value (possibly a
Remote-Exception Marker delivered through the success channel), or with a
locally raised exception. -/
inductive Resolution where
  | ok (v : PValue)
  | exn (e : PExc)
deriving DecidableEq

/-- Modelled from the spec: the Task Record's retry state.  The
retries-remaining counter may be absent (`none`) for tasks with no retry
concept at all.  The record is owned and mutated by the scheduler; the
Application Future only reads it.  (In `futures.py` the record is the
opaque `task_struct` dictionary; its retry field is not used by any code
under `src/`.) -/
structure TaskRecord where
  retries_left : Option Nat
deriving DecidableEq

/-- Modelled from the spec: whether the Task Record reports retries
remaining (retries-remaining > 0); a record with no retry field at all
counts as having none remaining. -/
def TaskRecord.retries_remain (t : TaskRecord) : Bool :=
  match t.retries_left with
  | some n => decide (0 < n)
  | none => false

/-- The base future states of `futures.py` (mirroring the module-level
constants `PENDING` .. `FINISHED`). -/
inductive FutureState where
  | PENDING
  | RUNNING
  | CANCELLED
  | CANCELLED_AND_NOTIFIED
  | FINISHED
deriving DecidableEq

/-- One attempt future (the "parent" future of an `AppFuture`), produced by
an external executor.  `running` abstracts the result of its `running()`
method, and `done_callbacks` the number of completion observers registered
on it (Python's `Future._done_callbacks` list length). -/
structure AttemptFuture where
  aid : Nat
  running : Bool
  done_callbacks : Nat
deriving DecidableEq

/-- The `AppFuture` state: the base-future fields `_state`, `_result`,
`_exception` inherited from `concurrent.futures.Future`, the `parent`
attempt reference set by `update_parent`, and the shared `_task_struct`
record.  `observer_firings` counts how many times this future's own
completion observers have been notified (Python notifies them exactly when
the future transitions to finished). -/
structure AppFuture where
  state : FutureState
  result : Option PValue
  exception : Option PExc
  parent : Option AttemptFuture
  task_struct : TaskRecord
  observer_firings : Nat
deriving DecidableEq

/-- `AppFuture.update_parent` from `futures.py`: the body is exactly
`self.parent = fut`.  It registers no callback on `fut` and touches no
other field (its docstring's first line is stale). -/
def AppFuture.update_parent (s : AppFuture) (fut : AttemptFuture) : AppFuture :=
  { s with parent := some fut }

/-- `AppFuture.cancel` from `futures.py`: unconditionally raises
`ValueError("Cancel not implemented")`, modelled as an `Except.error`. -/
def AppFuture.cancel (_ : AppFuture) : Except String Bool :=
  Except.error "Cancel not implemented"

/-- `AppFuture.cancelled` from `futures.py`: unconditionally `False`. -/
def AppFuture.cancelled (_ : AppFuture) : Bool :=
  false

/-- `AppFuture.running` from `futures.py`: `self.parent.running()` when a
parent attempt is bound (a bound future object is always truthy), else
`False`. -/
def AppFuture.running (s : AppFuture) : Bool :=
  match s.parent with
  | some p => p.running
  | none => false

/-- Nonblocking view of `Future.result()` (from the Python standard
library's `concurrent.futures.Future`, which `AppFuture` subclasses):
`none` means the call would block; on a finished future it raises the
stored exception if one is set, else returns the stored result. -/
def AppFuture.result_call (s : AppFuture) : Option (Except PExc (Option PValue)) :=
  match s.state with
  | .FINISHED =>
      some (match s.exception with
            | some e => Except.error e
            | none => Except.ok s.result)
  | _ => none

/-- Nonblocking view of `Future.exception()`: `none` means the call would
block; on a finished future it returns the stored exception (if any). -/
def AppFuture.exception_call (s : AppFuture) : Option (Option PExc) :=
  match s.state with
  | .FINISHED => some s.exception
  | _ => none

/-- Modelled from the spec: finalize the Application Future with a result
value — set the result, transition to finished, notify observers.  (The
code performing this on attempt resolution lives in the scheduler,
`parsl/dataflow/dflow.py`, which is not part of this source tree.) -/
def AppFuture.finish_with_result (s : AppFuture) (v : PValue) : AppFuture :=
  { s with result := some v, state := .FINISHED,
           observer_firings := s.observer_firings + 1 }

/-- Modelled from the spec: finalize the Application Future with a failure —
set the failure, transition to finished, notify observers. -/
def AppFuture.finish_with_exception (s : AppFuture) (e : PExc) : AppFuture :=
  { s with exception := some e, state := .FINISHED,
           observer_firings := s.observer_firings + 1 }

/-- Modelled from the spec: handling of a failed attempt (spec item 2 of the
forwarding algorithm).  If the Task Record reports retries remaining, do
not set a result or failure and leave the future pending (no observer
fires); otherwise set the failure to the unwrapped originating failure and
finish. -/
def AppFuture.handle_failure (s : AppFuture) (e : PExc) : AppFuture :=
  if s.task_struct.retries_remain then s
  else s.finish_with_exception e

/-- Modelled from the spec: the forwarding algorithm executed when the
currently-bound attempt resolves.  A resolution arriving when the future is
already finished is ignored (spec item 3, idempotence).  A value that is
not a Remote-Exception Marker finalizes the future with that value; a
Remote-Exception Marker or a locally raised failure goes through the retry
check with the unwrapped originating failure. -/
def AppFuture.forward (s : AppFuture) (r : Resolution) : AppFuture :=
  if s.state = .FINISHED then s
  else
    match r with
    | .ok (.remoteWrapper e) => s.handle_failure e
    | .ok v => s.finish_with_result v
    | .exn e => s.handle_failure e

/-- The events that can touch an Application Future over its life: the
scheduler rebinding a new attempt (`update_parent`, from the source), the
scheduler mutating the Task Record's retry counter (the record's owner),
and the currently-bound attempt resolving (the forwarding algorithm). -/
inductive Event where
  | rebind (fut : AttemptFuture)
  | set_retries (r : Option Nat)
  | resolve (r : Resolution)
deriving DecidableEq

/-- One event applied to an Application Future. -/
def AppFuture.step (s : AppFuture) : Event → AppFuture
  | .rebind fut => s.update_parent fut
  | .set_retries r => { s with task_struct := { retries_left := r } }
  | .resolve r => s.forward r

/-- A sequence of events applied in order. -/
def AppFuture.run (s : AppFuture) : List Event → AppFuture
  | [] => s
  | e :: es => (s.step e).run es

/-- Whether a resolution is a failure for the purpose of the forwarding
algorithm: a locally raised exception, or a value that is a
Remote-Exception Marker. -/
def Resolution.failing : Resolution → Bool
  | .ok v => v.isRemoteMarker
  | .exn _ => true

/-- A trace in which every attempt resolution is a failure observed while
the Task Record (at that moment) reports retries remaining. -/
def AppFuture.absorbed_trace (s : AppFuture) : List Event → Bool
  | [] => true
  | e :: es =>
      (match e with
       | .resolve r => r.failing && s.task_struct.retries_remain
       | _ => true) && (s.step e).absorbed_trace es

/-! Embedding of the scaling logic of `src/parsl/executors/ipp.py`
(`IPyParallelExecutor.scale_out` and `.scale_in`). -/

/-- A key of the ipyparallel `Client.queue_status()` dictionary: either an
engine id, or the special `'unassigned'` entry that `scale_in` filters
out. -/
inductive QKey where
  | engine (id : Nat)
  | unassigned
deriving DecidableEq

/-- The provider fields `scale_in` reads (`nodes_per_block`,
`tasks_per_node`). -/
structure Provider where
  nodes_per_block : Nat
  tasks_per_node : Nat
deriving DecidableEq

/-- The `IPyParallelExecutor` state that `scale_out`/`scale_in` touch:
the optional provider, the `engines` list of provider job handles
(handles modelled as naturals), the `killed_engines` set (modelled as a
list, read through membership), and a snapshot of the ipyparallel client's
`queue_status()` mapping each key to its `'tasks'` count. -/
structure IppExecutor where
  provider : Option Provider
  engines : List Nat
  killed_engines : List Nat
  queue_status : List (QKey × Nat)
deriving DecidableEq

/-- The `all_engines` set of `scale_in`: every `queue_status` key that is
not `'unassigned'` and not already in `killed_engines`, paired here with
its `'tasks'` count for the idle/busy split below. -/
def IppExecutor.all_engines (ex : IppExecutor) : List (Nat × Nat) :=
  ex.queue_status.filterMap (fun kv =>
    match kv.fst with
    | .engine id => if id ∈ ex.killed_engines then none else some (id, kv.snd)
    | .unassigned => none)

/-- The `idle_engines` list of `scale_in`: those of `all_engines` whose
`queue_status[id_]['tasks']` count is zero. -/
def IppExecutor.idle_engines (ex : IppExecutor) : List Nat :=
  (ex.all_engines.filter (fun pr => pr.snd == 0)).map Prod.fst

/-- The `busy_engines` list of `scale_in`: `all_engines - set(idle_engines)`
(engine ids of `all_engines` that are not idle). -/
def IppExecutor.busy_engines (ex : IppExecutor) : List Nat :=
  (ex.all_engines.map Prod.fst).filter (fun id => decide (id ∉ ex.idle_engines))

/-- The outcome of one `scale_in` call: the executor state afterwards, the
return value (`none` models Python's `None` when no provider is
configured; otherwise the `to_kill` targets handed to
`executor.shutdown`), and whether the spill-over warning was logged. -/
structure ScaleInCall where
  after : IppExecutor
  ret : Option (List Nat)
  warned : Bool
deriving DecidableEq

/-- `IPyParallelExecutor.scale_in(blocks)` from `ipp.py`.  With no provider
it logs an error and returns `None` untouched.  Otherwise it computes
`n_engines = blocks * nodes_per_block * tasks_per_node`, splits the
not-yet-killed engines into idle and busy, sets
`spill_over = max(0, n_engines - len(idle_engines))` (natural subtraction),
warns when the spill-over is nonzero, kills
`idle_engines[:blocks] + busy_engines[:spill_over]`, and adds those ids to
`killed_engines`. -/
def IppExecutor.scale_in (ex : IppExecutor) (blocks : Nat) : ScaleInCall :=
  match ex.provider with
  | none => ⟨ex, none, false⟩
  | some p =>
      let n_engines := blocks * p.nodes_per_block * p.tasks_per_node
      let idle_engines := ex.idle_engines
      let busy_engines := ex.busy_engines
      let spill_over := n_engines - idle_engines.length
      let to_kill := idle_engines.take blocks ++ busy_engines.take spill_over
      ⟨{ ex with killed_engines := ex.killed_engines ++ to_kill },
       some to_kill,
       spill_over != 0⟩

/-- The `to_kill` targets a `scale_in` call selected (empty when the call
returned `None`). -/
def ScaleInCall.targets (c : ScaleInCall) : List Nat :=
  c.ret.getD []

/-- `IPyParallelExecutor.scale_out` from `ipp.py`.  `r` models the job
handle returned by `provider.submit(launch_cmd, ...)`.  With a provider the
handle is appended to `engines` and returned; with no provider it logs an
error and returns `None` with nothing changed. -/
def IppExecutor.scale_out (ex : IppExecutor) (r : Nat) : IppExecutor × Option Nat :=
  match ex.provider with
  | some _ => ({ ex with engines := ex.engines ++ [r] }, some r)
  | none => (ex, none)

/-! Concrete fixtures used by witnesses and counterexamples. -/

/-- A fresh pending Application Future whose task has 2 retries left. -/
def appP : AppFuture := ⟨.PENDING, none, none, none, ⟨some 2⟩, 0⟩

/-- A running attempt future with no completion observer registered. -/
def futA : AttemptFuture := ⟨1, true, 0⟩

/-- A second attempt future. -/
def futB : AttemptFuture := ⟨2, false, 0⟩

/-- `appP` after binding `futA` as the current attempt. -/
def appBound : AppFuture := ⟨.PENDING, none, none, some futA, ⟨some 2⟩, 0⟩

/-- A pending Application Future bound to `futA` whose task has 0 retries
left. -/
def appNoRetry : AppFuture := ⟨.PENDING, none, none, some futA, ⟨some 0⟩, 0⟩

/-- A finished Application Future holding the result 7. -/
def appF : AppFuture := ⟨.FINISHED, some (.vint 7), none, none, ⟨none⟩, 1⟩

/-- A sample exception description. -/
def excV : PExc := ⟨"ValueError", "bad value"⟩

/-- A second sample exception description. -/
def excZ : PExc := ⟨"ZeroDivisionError", "division by zero"⟩

/-! Helper lemmas. -/

/-- A failing resolution observed while retries remain leaves the pending
Application Future completely unchanged. -/
theorem forward_absorbs_failure (s : AppFuture) (r : Resolution)
    (hpend : s.state = .PENDING)
    (hf : r.failing = true)
    (hr : s.task_struct.retries_remain = true) :
    s.forward r = s := by
  cases r with
  | ok v =>
      cases v with
      | vint n => simp [Resolution.failing, PValue.isRemoteMarker] at hf
      | vstr t => simp [Resolution.failing, PValue.isRemoteMarker] at hf
      | remoteWrapper e =>
          simp [AppFuture.forward, hpend, AppFuture.handle_failure, hr]
  | exn e => simp [AppFuture.forward, hpend, AppFuture.handle_failure, hr]

/-! Claim theorems. -/

/-- C1: if the currently-bound attempt resolves with a value that is not a
Remote-Exception Marker, the Application Future's result is set to exactly
that value and it transitions to finished, so that subsequent `result()`
calls return that value, regardless of how many retries remained (the task
record's retry state is unconstrained here). -/
theorem C1_success_sets_result (app : AppFuture) (fut : AttemptFuture) (v : PValue)
    (_hbound : app.parent = some fut)
    (hpend : app.state = .PENDING)
    (hexc : app.exception = none)
    (hmark : v.isRemoteMarker = false) :
    (app.forward (.ok v)).state = .FINISHED ∧
    (app.forward (.ok v)).result = some v ∧
    (app.forward (.ok v)).result_call = some (Except.ok (some v)) := by
  cases v with
  | vint n =>
      simp [AppFuture.forward, hpend, AppFuture.finish_with_result,
            AppFuture.result_call, hexc]
  | vstr t =>
      simp [AppFuture.forward, hpend, AppFuture.finish_with_result,
            AppFuture.result_call, hexc]
  | remoteWrapper e => simp [PValue.isRemoteMarker] at hmark

/-- C1 witness: a bound pending future with 2 retries left receives the
value 42 and finishes with exactly that result. -/
theorem C1_success_sets_result_witness :
    (appBound.forward (.ok (.vint 42))).state = .FINISHED ∧
    (appBound.forward (.ok (.vint 42))).result = some (.vint 42) ∧
    (appBound.forward (.ok (.vint 42))).result_call = some (Except.ok (some (.vint 42))) :=
  C1_success_sets_result appBound futA (.vint 42) rfl rfl rfl rfl

/-- C2: along any trace whose attempt resolutions are all failures (local
or Remote-Exception Markers) observed while the Task Record reports retries
remaining, the Application Future stays pending after every prefix, with no
result or failure set and no completion observer fired. -/
theorem C2_failures_absorbed (app : AppFuture) (evs : List Event) (k : Nat)
    (hpend : app.state = .PENDING)
    (habs : app.absorbed_trace evs = true) :
    (app.run (evs.take k)).state = .PENDING ∧
    (app.run (evs.take k)).result = app.result ∧
    (app.run (evs.take k)).exception = app.exception ∧
    (app.run (evs.take k)).observer_firings = app.observer_firings := by
  induction evs generalizing app k with
  | nil =>
      rw [List.take_nil]
      exact ⟨hpend, rfl, rfl, rfl⟩
  | cons e es ih =>
      cases k with
      | zero =>
          rw [List.take_zero]
          exact ⟨hpend, rfl, rfl, rfl⟩
      | succ k =>
          have hstep : (app.step e).state = .PENDING ∧
              (app.step e).result = app.result ∧
              (app.step e).exception = app.exception ∧
              (app.step e).observer_firings = app.observer_firings ∧
              (app.step e).absorbed_trace es = true := by
            cases e with
            | rebind fut =>
                refine ⟨hpend, rfl, rfl, rfl, ?_⟩
                simpa [AppFuture.absorbed_trace] using habs
            | set_retries rr =>
                refine ⟨hpend, rfl, rfl, rfl, ?_⟩
                simpa [AppFuture.absorbed_trace] using habs
            | resolve r =>
                simp only [AppFuture.absorbed_trace, Bool.and_eq_true] at habs
                have hfix : app.forward r = app :=
                  forward_absorbs_failure app r hpend habs.1.1 habs.1.2
                have hs : app.step (.resolve r) = app := by
                  simpa [AppFuture.step] using hfix
                rw [hs]
                exact ⟨hpend, rfl, rfl, rfl, hs ▸ habs.2⟩
          have htail := ih (app.step e) k hstep.1 hstep.2.2.2.2
          rw [List.take_succ_cons, AppFuture.run]
          exact ⟨htail.1, htail.2.1.trans hstep.2.1,
                 htail.2.2.1.trans hstep.2.2.1,
                 htail.2.2.2.trans hstep.2.2.2.1⟩

/-- C2 witness: two failing attempts (a local exception, then a
Remote-Exception Marker) with retries remaining at each, interleaved with
a scheduler retry decrement and a rebind, leave the future pending with
nothing set and no observer fired. -/
theorem C2_failures_absorbed_witness :
    (appBound.run (([Event.resolve (.exn excV), Event.set_retries (some 1),
                     Event.rebind futB,
                     Event.resolve (.ok (.remoteWrapper excZ))]).take 4)).state = .PENDING ∧
    (appBound.run (([Event.resolve (.exn excV), Event.set_retries (some 1),
                     Event.rebind futB,
                     Event.resolve (.ok (.remoteWrapper excZ))]).take 4)).result = appBound.result ∧
    (appBound.run (([Event.resolve (.exn excV), Event.set_retries (some 1),
                     Event.rebind futB,
                     Event.resolve (.ok (.remoteWrapper excZ))]).take 4)).exception = appBound.exception ∧
    (appBound.run (([Event.resolve (.exn excV), Event.set_retries (some 1),
                     Event.rebind futB,
                     Event.resolve (.ok (.remoteWrapper excZ))]).take 4)).observer_firings = appBound.observer_firings :=
  C2_failures_absorbed appBound
    [Event.resolve (.exn excV), Event.set_retries (some 1),
     Event.rebind futB, Event.resolve (.ok (.remoteWrapper excZ))]
    4 rfl (by decide)

/-- C3: an attempt that resolves with a Remote-Exception Marker or a local
failure when no retries remain, or when the Task Record carries no retry
field at all, sets the Application Future's failure to the unwrapped
originating failure and finishes it; the marker is never returned as a
value from `result()` (which raises the unwrapped failure), and
`exception()` surfaces the unwrapped failure. -/
theorem C3_failure_finalizes_unwrapped (app : AppFuture) (r : Resolution) (e : PExc)
    (hpend : app.state = .PENDING)
    (hres : app.result = none)
    (hfail : r = .ok (.remoteWrapper e) ∨ r = .exn e)
    (hnor : app.task_struct.retries_left = none ∨ app.task_struct.retries_left = some 0) :
    (app.forward r).state = .FINISHED ∧
    (app.forward r).exception = some e ∧
    (app.forward r).result = none ∧
    (app.forward r).result_call = some (Except.error e) ∧
    (app.forward r).exception_call = some (some e) := by
  have hrr : app.task_struct.retries_remain = false := by
    rcases hnor with h | h <;> simp [TaskRecord.retries_remain, h]
  rcases hfail with h | h <;> subst h <;>
    simp [AppFuture.forward, hpend, AppFuture.handle_failure, hrr,
          AppFuture.finish_with_exception, AppFuture.result_call,
          AppFuture.exception_call, hres]

/-- C3 witness: with 0 retries left, a Remote-Exception Marker carrying a
`ValueError` finishes the future with the unwrapped `ValueError`. -/
theorem C3_failure_finalizes_unwrapped_witness :
    (appNoRetry.forward (.ok (.remoteWrapper excV))).state = .FINISHED ∧
    (appNoRetry.forward (.ok (.remoteWrapper excV))).exception = some excV ∧
    (appNoRetry.forward (.ok (.remoteWrapper excV))).result = none ∧
    (appNoRetry.forward (.ok (.remoteWrapper excV))).result_call = some (Except.error excV) ∧
    (appNoRetry.forward (.ok (.remoteWrapper excV))).exception_call = some (some excV) :=
  C3_failure_finalizes_unwrapped appNoRetry (.ok (.remoteWrapper excV)) excV
    rfl rfl (Or.inl rfl) (Or.inr rfl)

/-- C4 counterexample: `update_parent` does not register a completion
observer on the attempt it binds.  Binding `futA` (which carries zero
registered observers) leaves it with zero registered observers, while the
claim requires one to have been registered by the call. -/
theorem C4_no_observer_registered :
    (appP.update_parent futA).parent = some futA ∧
    futA.done_callbacks = 0 ∧
    ((appP.update_parent futA).parent.map AttemptFuture.done_callbacks) = some 0 := by
  decide

/-- C4 (amended): `update_parent` attaches the given attempt future as the
current attempt, replacing any previous one; it returns no value, changes
no other field of the Application Future, makes `running()` reflect the new
attempt, and registers no completion observer on the attempt (the attempt's
observer count is unchanged; observer registration happens elsewhere, in
the scheduler). -/
theorem C4_update_parent_only_rebinds (app : AppFuture) (fut : AttemptFuture) :
    (app.update_parent fut).parent = some fut ∧
    (app.update_parent fut).state = app.state ∧
    (app.update_parent fut).result = app.result ∧
    (app.update_parent fut).exception = app.exception ∧
    (app.update_parent fut).task_struct = app.task_struct ∧
    (app.update_parent fut).observer_firings = app.observer_firings ∧
    (app.update_parent fut).running = fut.running ∧
    ((app.update_parent fut).parent.map AttemptFuture.done_callbacks) = some fut.done_callbacks := by
  simp [AppFuture.update_parent, AppFuture.running]

/-- C5 counterexample: the current-attempt reference can be replaced by
`update_parent` even on an already-finished Application Future —
`update_parent` performs no finished-state check, so the claim's "may be
replaced only while it is not yet finished" fails. -/
theorem C5_rebind_after_finished :
    appF.state = .FINISHED ∧
    (appF.update_parent futA).parent ≠ appF.parent := by
  decide

/-- C5 (amended): once an Application Future is finished, its state and its
result/failure are immutable under every sequence of events (rebinds,
scheduler retry updates, attempt resolutions); the current-attempt
reference, however, can still be replaced by a rebind at any time,
including after finishing. -/
theorem C5_finished_immutable (app : AppFuture) (evs : List Event)
    (hfin : app.state = .FINISHED) :
    (app.run evs).state = .FINISHED ∧
    (app.run evs).result = app.result ∧
    (app.run evs).exception = app.exception := by
  induction evs generalizing app with
  | nil => exact ⟨hfin, rfl, rfl⟩
  | cons e es ih =>
      have hstep : (app.step e).state = .FINISHED ∧
          (app.step e).result = app.result ∧
          (app.step e).exception = app.exception := by
        cases e with
        | rebind fut => exact ⟨hfin, rfl, rfl⟩
        | set_retries rr => exact ⟨hfin, rfl, rfl⟩
        | resolve r => simp [AppFuture.step, AppFuture.forward, hfin]
      have htail := ih (app.step e) hstep.1
      rw [AppFuture.run]
      exact ⟨htail.1, htail.2.1.trans hstep.2.1, htail.2.2.trans hstep.2.2⟩

/-- C5 (amended) witness: a finished future holding the result 7 keeps its
state and result/failure across a rebind and a stale resolution. -/
theorem C5_finished_immutable_witness :
    (appF.run [Event.rebind futA, Event.resolve (.ok (.vint 3))]).state = .FINISHED ∧
    (appF.run [Event.rebind futA, Event.resolve (.ok (.vint 3))]).result = appF.result ∧
    (appF.run [Event.rebind futA, Event.resolve (.ok (.vint 3))]).exception = appF.exception :=
  C5_finished_immutable appF [Event.rebind futA, Event.resolve (.ok (.vint 3))] rfl

/-- C6: in every state of an Application Future, `cancel()` raises the
unsupported-operation error `ValueError("Cancel not implemented")` and never
cancels anything, and `cancelled()` returns false. -/
theorem C6_cancel_unsupported (app : AppFuture) :
    app.cancel = Except.error "Cancel not implemented" ∧
    app.cancelled = false :=
  ⟨rfl, rfl⟩

/-- C7: `running()` returns the currently-bound attempt's `running()` result
when an attempt is bound, and returns false when no attempt has ever been
bound; it is a total function of the current state (it never blocks). -/
theorem C7_running_delegates (app : AppFuture) (fut : AttemptFuture) :
    (app.parent = some fut → app.running = fut.running) ∧
    (app.parent = none → app.running = false) := by
  constructor <;> intro h <;> simp [AppFuture.running, h]

/-- C7 witness: with `futA` bound, `running()` equals `futA`'s running
predicate; with no attempt bound, `running()` is false. -/
theorem C7_running_delegates_witness :
    appBound.running = futA.running ∧ appP.running = false :=
  ⟨(C7_running_delegates appBound futA).1 rfl,
   (C7_running_delegates appP futA).2 rfl⟩

/-! Fixtures and helper lemmas for the scaling claims. -/

/-- A provider with one node per block and one task per node. -/
def prov11 : Provider := ⟨1, 1⟩

/-- Scenario 4 of the spec: one idle engine (id 1), two busy engines
(ids 2 and 3), one engine per block, nothing killed yet; the
`'unassigned'` queue entry is present as in a real `queue_status()`. -/
def ex9 : IppExecutor :=
  ⟨some prov11, [], [],
   [(.engine 1, 0), (.engine 2, 3), (.engine 3, 1), (.unassigned, 5)]⟩

/-- `ex9` with engine id 7 already in the killed-set. -/
def exK : IppExecutor :=
  ⟨some prov11, [], [7],
   [(.engine 1, 0), (.engine 2, 3), (.engine 3, 1), (.unassigned, 5)]⟩

/-- An executor with no provider configured. -/
def exNoProv : IppExecutor := ⟨none, [4], [9], [(.engine 1, 0)]⟩

/-- Every engine listed in `all_engines` is outside the killed-set (the
construction filters the killed ids out). -/
theorem all_engines_not_killed (ex : IppExecutor) (id t : Nat)
    (h : (id, t) ∈ ex.all_engines) : id ∉ ex.killed_engines := by
  simp only [IppExecutor.all_engines, List.mem_filterMap] at h
  obtain ⟨⟨k, tasks⟩, hmem, hf⟩ := h
  cases k with
  | engine id2 =>
      by_cases hk : id2 ∈ ex.killed_engines
      · simp [hk] at hf
      · simp only [if_neg hk, Option.some.injEq, Prod.mk.injEq] at hf
        obtain ⟨h1, h2⟩ := hf
        subst h1
        exact hk
  | unassigned => simp at hf

/-- An idle engine id comes from some `all_engines` entry with a zero task
count. -/
theorem mem_idle_engines (ex : IppExecutor) (id : Nat)
    (h : id ∈ ex.idle_engines) : ∃ t, (id, t) ∈ ex.all_engines := by
  simp only [IppExecutor.idle_engines, List.mem_map] at h
  obtain ⟨⟨id2, t⟩, hmem, hfst⟩ := h
  rw [List.mem_filter] at hmem
  exact ⟨t, by simpa [← hfst] using hmem.1⟩

/-- A busy engine id comes from some `all_engines` entry and is not among
the idle ids. -/
theorem mem_busy_engines (ex : IppExecutor) (id : Nat)
    (h : id ∈ ex.busy_engines) :
    (∃ t, (id, t) ∈ ex.all_engines) ∧ id ∉ ex.idle_engines := by
  simp only [IppExecutor.busy_engines, List.mem_filter, List.mem_map,
             decide_eq_true_eq] at h
  obtain ⟨⟨⟨id2, t⟩, hmem, hfst⟩, hnid⟩ := h
  exact ⟨⟨t, by simpa [← hfst] using hmem⟩, hnid⟩

/-- With a provider configured, the kill targets of `scale_in` are exactly
`idle_engines[:blocks] + busy_engines[:spill_over]`, and the killed-set
afterwards is the old killed-set extended with them. -/
theorem scale_in_targets_eq (ex : IppExecutor) (blocks : Nat) (p : Provider)
    (hp : ex.provider = some p) :
    (ex.scale_in blocks).targets =
      ex.idle_engines.take blocks ++
      ex.busy_engines.take (blocks * p.nodes_per_block * p.tasks_per_node -
                            ex.idle_engines.length) ∧
    (ex.scale_in blocks).after.killed_engines =
      ex.killed_engines ++ (ex.scale_in blocks).targets := by
  simp [IppExecutor.scale_in, hp, ScaleInCall.targets]

/-- C8: no engine id already in the killed-set is selected by `scale_in`;
every selected id is added to the killed-set, which only ever grows; and a
busy engine is selected only when the idle supply falls short of the target
engine count. -/
theorem C8_killed_set_discipline (ex : IppExecutor) (blocks : Nat) (p : Provider) (id : Nat)
    (hp : ex.provider = some p) :
    (id ∈ (ex.scale_in blocks).targets → id ∉ ex.killed_engines) ∧
    (id ∈ (ex.scale_in blocks).targets → id ∈ (ex.scale_in blocks).after.killed_engines) ∧
    (id ∈ ex.killed_engines → id ∈ (ex.scale_in blocks).after.killed_engines) ∧
    (id ∈ (ex.scale_in blocks).targets → id ∈ ex.busy_engines →
      ex.idle_engines.length < blocks * p.nodes_per_block * p.tasks_per_node) := by
  obtain ⟨htg, hkill⟩ := scale_in_targets_eq ex blocks p hp
  refine ⟨?_, ?_, ?_, ?_⟩
  · intro hmem
    rw [htg, List.mem_append] at hmem
    rcases hmem with hmem | hmem
    · obtain ⟨t, hall⟩ := mem_idle_engines ex id (List.take_subset _ _ hmem)
      exact all_engines_not_killed ex id t hall
    · obtain ⟨⟨t, hall⟩, _⟩ := mem_busy_engines ex id (List.take_subset _ _ hmem)
      exact all_engines_not_killed ex id t hall
  · intro hmem
    rw [hkill, List.mem_append]
    exact Or.inr hmem
  · intro hmem
    rw [hkill, List.mem_append]
    exact Or.inl hmem
  · intro hmem hbusy
    by_contra hlt
    push_neg at hlt
    have hz : blocks * p.nodes_per_block * p.tasks_per_node - ex.idle_engines.length = 0 :=
      Nat.sub_eq_zero_of_le hlt
    rw [htg, hz, List.take_zero, List.append_nil] at hmem
    exact (mem_busy_engines ex id hbusy).2 (List.take_subset _ _ hmem)

/-- C8 witness: in scenario `ex9`, the selected busy engine 2 was not
previously killed and is killed afterwards (with the idle supply indeed
short of the target), and a previously-killed id 7 stays in the
killed-set. -/
theorem C8_killed_set_discipline_witness :
    (2 ∉ ex9.killed_engines) ∧
    2 ∈ (ex9.scale_in 2).after.killed_engines ∧
    7 ∈ (exK.scale_in 2).after.killed_engines ∧
    ex9.idle_engines.length < 2 * prov11.nodes_per_block * prov11.tasks_per_node :=
  ⟨(C8_killed_set_discipline ex9 2 prov11 2 rfl).1 (by decide),
   (C8_killed_set_discipline ex9 2 prov11 2 rfl).2.1 (by decide),
   (C8_killed_set_discipline exK 2 prov11 7 rfl).2.2.1 (by decide),
   (C8_killed_set_discipline ex9 2 prov11 2 rfl).2.2.2 (by decide) (by decide)⟩

/-- C9: `scale_in(blocks)` targets `blocks * nodes_per_block *
tasks_per_node` engines, kills idle engines first (up to `blocks`) and
spills over into busy engines for the shortfall, warning exactly when the
idle supply is below the target; in particular, with 1 idle engine, 2 busy
engines and 1 engine per block, `scale_in 2` kills the idle engine plus
exactly one busy engine (ids 1 and 2), with the warning logged. -/
theorem C9_scale_in_spill (ex : IppExecutor) (blocks : Nat) (p : Provider)
    (hp : ex.provider = some p) :
    ((ex.scale_in blocks).ret =
      some (ex.idle_engines.take blocks ++
            ex.busy_engines.take (blocks * p.nodes_per_block * p.tasks_per_node -
                                  ex.idle_engines.length)) ∧
     ((ex.scale_in blocks).warned = true ↔
      ex.idle_engines.length < blocks * p.nodes_per_block * p.tasks_per_node)) ∧
    ((ex9.scale_in 2).ret = some [1, 2] ∧
     (ex9.scale_in 2).warned = true ∧
     (ex9.scale_in 2).after.killed_engines = [1, 2]) := by
  refine ⟨⟨?_, ?_⟩, ?_, ?_, ?_⟩
  · simp [IppExecutor.scale_in, hp]
  · simp only [IppExecutor.scale_in, hp, bne_iff_ne, ne_eq]
    omega
  · decide
  · decide
  · decide

/-- C9 witness: the general clause instantiated at scenario `ex9` with
`blocks = 2`, together with the concrete scenario outcome. -/
theorem C9_scale_in_spill_witness :
    (((ex9.scale_in 2).ret =
      some (ex9.idle_engines.take 2 ++
            ex9.busy_engines.take (2 * prov11.nodes_per_block * prov11.tasks_per_node -
                                   ex9.idle_engines.length)) ∧
     ((ex9.scale_in 2).warned = true ↔
      ex9.idle_engines.length < 2 * prov11.nodes_per_block * prov11.tasks_per_node)) ∧
    ((ex9.scale_in 2).ret = some [1, 2] ∧
     (ex9.scale_in 2).warned = true ∧
     (ex9.scale_in 2).after.killed_engines = [1, 2])) :=
  C9_scale_in_spill ex9 2 prov11 rfl

/-- C10: with no execution provider configured, `scale_out` and `scale_in`
each return `None` without raising and with the executor state (engines
list and killed-set included) completely unchanged. -/
theorem C10_no_provider (ex : IppExecutor) (r blocks : Nat)
    (hp : ex.provider = none) :
    ex.scale_out r = (ex, none) ∧
    ex.scale_in blocks = ⟨ex, none, false⟩ := by
  constructor
  · simp [IppExecutor.scale_out, hp]
  · simp [IppExecutor.scale_in, hp]

/-- C10 witness: a provider-less executor is untouched by both scaling
calls, which return `None`. -/
theorem C10_no_provider_witness :
    exNoProv.scale_out 5 = (exNoProv, none) ∧
    exNoProv.scale_in 3 = ⟨exNoProv, none, false⟩ :=
  C10_no_provider exNoProv 5 3 rfl

end Parsl
